import Mathlib

/-!
Shallow embedding of the gobananas conversation-persistence and
generation-orchestration subsystem.

The embedding follows the TypeScript sources:
  * `src/services/geminiService.ts` — provider-call orchestration, context-limit
    retry, response classification (`extractImageData`, `getBlockMessage`);
  * `src/services/fileSystemStorage.ts` — two storage backends for image assets
    and the conversations document (a browser File System Access backend and a
    server-backed one), together with the server routes of `src/server.js` that
    the latter calls;
  * the conversation store (`ConversationStorage`): upsert/trim persistence,
    cascade deletion, legacy migration, sanitisation before every write;
  * the `ChatInterface` component handlers `handleSendMessage`,
    `handleForkThread`, `handleRerunFromMessage` from
    `src/components/Generator.tsx`.

JavaScript strings are modelled as Lean `String`s with hand-rolled, fully
computable ASCII helpers (the source only ever manipulates ASCII in the
relevant paths).  JavaScript numbers used as timestamps are modelled as `Nat`;
the sampling temperature (never computed with) as `Int`.  `undefined`/missing
fields are `Option`.  Asynchronous effects are modelled as sequential state
passing; fallible calls return `Except`.
-/

namespace GoBananas

/-! ### ASCII string helpers mirroring JavaScript semantics -/

/-- Lower-case an ASCII character, as `String.prototype.toLowerCase` does on
ASCII input. -/
def asciiLower (c : Char) : Char :=
  if 'A' ≤ c ∧ c ≤ 'Z' then Char.ofNat (c.toNat + 32) else c

/-- Upper-case an ASCII character, as `String.prototype.toUpperCase` does on
ASCII input. -/
def asciiUpper (c : Char) : Char :=
  if 'a' ≤ c ∧ c ≤ 'z' then Char.ofNat (c.toNat - 32) else c

def lowerString (s : String) : String := String.mk (s.data.map asciiLower)

def upperString (s : String) : String := String.mk (s.data.map asciiUpper)

/-- Replace every occurrence of a character (used for `replace(/_/g, ' ')`). -/
def replaceChar (a b : Char) (s : String) : String :=
  String.mk (s.data.map (fun c => if c == a then b else c))

def isPrefixL : List Char → List Char → Bool
  | [], _ => true
  | _ :: _, [] => false
  | p :: ps, c :: cs => p == c && isPrefixL ps cs

def containsL (pat : List Char) : List Char → Bool
  | [] => isPrefixL pat []
  | c :: cs => isPrefixL pat (c :: cs) || containsL pat cs

/-- `s.includes(pat)` for JavaScript strings. -/
def strContains (s pat : String) : Bool := containsL pat.data s.data

def isJsSpace (c : Char) : Bool :=
  c == ' ' || c == '\t' || c == '\n' || c == '\r'

/-- `String.prototype.trim` (ASCII whitespace). -/
def trimString (s : String) : String :=
  String.mk (((s.data.dropWhile isJsSpace).reverse.dropWhile isJsSpace).reverse)

/-- `String.prototype.split(sep)` for a one-character separator. -/
def splitChar (sep : Char) : List Char → List (List Char)
  | [] => [[]]
  | c :: cs =>
    let r := splitChar sep cs
    if c == sep then [] :: r
    else
      match r with
      | [] => [[c]]
      | h :: t => (c :: h) :: t

def joinWith (sep : String) : List String → String
  | [] => ""
  | [x] => x
  | x :: xs => x ++ sep ++ joinWith sep xs

/-- JavaScript truthiness of an optional string (`undefined` and `''` are
falsy). -/
def truthyB : Option String → Bool
  | some s => s ≠ ""
  | none => false

/-- `a || b` on optional strings with JavaScript truthiness, returning `b`
verbatim when `a` is falsy. -/
def jsOrS (a b : Option String) : Option String :=
  match a with
  | some s => if s = "" then b else some s
  | none => b

/-- Coerce a falsy optional string to `none` (used where only truthiness of
the result is ever observed). -/
def truthyStr : Option String → Option String
  | some s => if s = "" then none else some s
  | none => none

/-- First-occurrence deduplication, as `[...new Set(xs)]`. -/
def dedupFirst (l : List String) : List String :=
  l.foldl (fun acc x => if acc.contains x then acc else acc ++ [x]) []

/-! ### Data model (`src/types.ts`)

`ConversationThread` carries the two extra fields of the UI-side
`ThreadWithUi` (`thumbnailUrl`, `lastMessagePreview`): in the source these
travel on the same runtime object and survive JSON persistence, which matters
for the sanitisation claims. -/

structure TextContent where
  text : String
  isThought : Bool := false
  thoughtSignature : Option String := none
deriving DecidableEq

structure ImageContent where
  imageId : String
  mimeType : String
  url : Option String := none
  isInputImage : Bool := false
  thoughtSummaries : Option (List String) := none
  thoughtSignature : Option String := none
deriving DecidableEq

inductive MessageContent where
  | text : TextContent → MessageContent
  | image : ImageContent → MessageContent
deriving DecidableEq

inductive MessageRole where
  | user
  | assistant
deriving DecidableEq

structure ConversationMessage where
  id : String
  role : MessageRole
  content : List MessageContent
  timestamp : Nat
deriving DecidableEq

structure ConversationThread where
  id : String
  messages : List ConversationMessage
  thumbnailImageId : Option String := none
  thumbnailUrl : Option String := none
  lastMessagePreview : Option String := none
  createdAt : Nat := 0
  updatedAt : Nat
  model : String := "gemini-3-pro-image-preview"
  temperature : Int := 1
deriving DecidableEq

/-! ### geminiService.ts -/

/-- `isContextLimitError`: the message, lower-cased, mentions tokens or
context. -/
def isContextLimitError (message : String) : Bool :=
  strContains (lowerString message) "token" || strContains (lowerString message) "context"

/-- `formatBlockReason` from geminiService.ts. -/
def formatBlockReason (reason : Option String) : Option String :=
  match reason with
  | none => none
  | some r =>
    if r = "" ∨ r = "BLOCK_REASON_UNSPECIFIED" then none
    else
      let normalized := upperString r
      if normalized = "SAFETY" then some "blocked by Gemini safety filters"
      else if normalized = "OTHER" then some "blocked by Gemini for an unspecified policy reason"
      else some ("blocked: " ++ lowerString (replaceChar '_' ' ' normalized))

structure InlineData where
  mimeType : Option String := none
  data : String := ""
deriving DecidableEq

/-- One part of a provider response candidate.  The signature is looked up in
both the snake_case and camelCase spellings, as the source does. -/
structure RespPart where
  text : Option String := none
  thought : Bool := false
  thought_signature : Option String := none
  thoughtSignature : Option String := none
  inlineData : Option InlineData := none
deriving DecidableEq

structure Candidate where
  content : Option (List RespPart) := none
  finishReason : Option String := none
  safetyRatings : List (Option String) := []
deriving DecidableEq

structure PromptFeedback where
  blockReason : Option String := none
  safetyRatings : List (Option String) := []
deriving DecidableEq

structure GenResponse where
  candidates : List Candidate := []
  promptFeedback : Option PromptFeedback := none
deriving DecidableEq

/-- `getBlockMessage` from geminiService.ts. -/
def getBlockMessage (r : GenResponse) : Option String :=
  let promptFeedback := r.promptFeedback
  let firstCandidate := r.candidates.head?
  let finishReason := firstCandidate.bind (·.finishReason)
  let reason :=
    jsOrS (promptFeedback.bind (·.blockReason))
      (match finishReason with
       | some fr => if upperString fr ≠ "STOP" then some fr else none
       | none => none)
  let friendly := formatBlockReason reason
  if friendly = none ∧ promptFeedback = none then none
  else
    let safetyCategories :=
      match promptFeedback with
      | some pf => pf.safetyRatings.filterMap truthyStr
      | none => []
    let candidateCategories :=
      match firstCandidate with
      | some c => c.safetyRatings.filterMap truthyStr
      | none => []
    let mergedCategories := dedupFirst (safetyCategories ++ candidateCategories)
    let categoryText :=
      if mergedCategories.isEmpty then "" else " (" ++ joinWith ", " mergedCategories ++ ")"
    let base := friendly.getD "model response blocked by Gemini"
    some (base ++ categoryText ++ ". Please adjust the prompt or remove sensitive content.")

/-- The signature of a response part: `thought_signature || thoughtSignature`. -/
def partSignature (p : RespPart) : Option String :=
  jsOrS p.thought_signature p.thoughtSignature

/-- Whether a response part takes the text branch of the extraction loop
(`if (part.text)`). -/
def isTextBranch (p : RespPart) : Bool := truthyB p.text

/-- Whether a response part takes the image branch
(`else if (part.inlineData?.data)`). -/
def isImageBranch (p : RespPart) : Bool :=
  !isTextBranch p &&
    (match p.inlineData with
     | some d => d.data ≠ ""
     | none => false)

/-- The loop body of `extractImageData`: walks the candidate parts carrying
the list of accumulated (text) thoughts. -/
def processParts (acc : List String) : List RespPart → List MessageContent
  | [] => []
  | p :: rest =>
    let signature := partSignature p
    if truthyB p.text then
      let t := p.text.getD ""
      MessageContent.text ⟨t, p.thought || truthyB signature, signature⟩ ::
        processParts (acc ++ [t]) rest
    else
      match p.inlineData with
      | some idata =>
        if idata.data ≠ "" then
          let mime := (truthyStr idata.mimeType).getD "image/png"
          MessageContent.image
            ⟨"", mime, some ("data:" ++ mime ++ ";base64," ++ idata.data), false,
              (if acc.isEmpty then none else some acc), signature⟩ ::
            processParts acc rest
        else processParts acc rest
      | none => processParts acc rest

def isImageOut : MessageContent → Bool
  | MessageContent.image _ => true
  | _ => false

/-- `extractImageData` from geminiService.ts: block check first, then part
extraction, then the fallback errors. -/
def extractImageData (r : GenResponse) : Except String (List MessageContent) :=
  match getBlockMessage r with
  | some m => Except.error m
  | none =>
    let contentParts :=
      match r.candidates.head? with
      | some c => processParts [] (c.content.getD [])
      | none => []
    if contentParts.any isImageOut then Except.ok contentParts
    else
      match r.promptFeedback with
      | some _ =>
        Except.error
          ((getBlockMessage r).getD
            "Model did not return image data. The prompt may have been blocked or filtered.")
      | none => Except.error "Model did not return image data. Try a different prompt/model or try again."

/-- `generateImageFromConversation`'s retry wrapper.  `sendFn` abstracts one
full provider round trip (`send` in the source: formatting, the provider call
and `extractImageData`); errors carry the thrown message.  The second
component records each history actually sent, in order. -/
def generateImageFromConversation
    (sendFn : List ConversationMessage → Except String (List MessageContent))
    (messages : List ConversationMessage) :
    Except String (List MessageContent) × List (List ConversationMessage) :=
  match sendFn messages with
  | Except.ok r => (Except.ok r, [messages])
  | Except.error e =>
    if isContextLimitError e then
      let truncated := messages.drop (messages.length / 2)
      (sendFn truncated, [messages, truncated])
    else (Except.error e, [messages])

end GoBananas

namespace GoBananas

instance {ε α : Type _} [DecidableEq ε] [DecidableEq α] : DecidableEq (Except ε α) := fun x y =>
  match x, y with
  | Except.ok a, Except.ok b =>
    if h : a = b then Decidable.isTrue (by simp [h]) else Decidable.isFalse (by simp [h])
  | Except.ok _, Except.error _ => Decidable.isFalse (by simp)
  | Except.error _, Except.ok _ => Decidable.isFalse (by simp)
  | Except.error a, Except.error b =>
    if h : a = b then Decidable.isTrue (by simp [h]) else Decidable.isFalse (by simp [h])

/-! ### Theorems for claim C2 (overflow retry) -/

/-- Claim C2, amended (the source drops the oldest `⌊n/2⌋` messages, keeping
the `⌈n/2⌉`-message suffix): when the provider call over `messages` fails with
a context-overflow error, the orchestrator retries exactly once, resending the
suffix obtained by dropping the oldest `⌊n/2⌋` messages in its original order,
and whatever the retry produces — including a second overflow failure — is
returned unchanged, with no further provider call. -/
theorem C2_overflow_retry_drops_floor_half
    (sendFn : List ConversationMessage → Except String (List MessageContent))
    (messages : List ConversationMessage) (e : String)
    (hfail : sendFn messages = Except.error e)
    (hoverflow : isContextLimitError e = true) :
    generateImageFromConversation sendFn messages =
      (sendFn (messages.drop (messages.length / 2)),
        [messages, messages.drop (messages.length / 2)]) := by
  unfold generateImageFromConversation
  rw [hfail]
  simp [hoverflow]

theorem C2_overflow_retry_drops_floor_half_witness :
    (fun h : List ConversationMessage =>
        if 3 ≤ h.length then (Except.error "token limit exceeded" : Except String (List MessageContent))
        else Except.ok [])
      [⟨"m1", MessageRole.user, [], 1⟩, ⟨"m2", MessageRole.assistant, [], 2⟩,
        ⟨"m3", MessageRole.user, [], 3⟩] = Except.error "token limit exceeded" ∧
    isContextLimitError "token limit exceeded" = true ∧
    generateImageFromConversation
      (fun h =>
        if 3 ≤ h.length then Except.error "token limit exceeded"
        else Except.ok [])
      [⟨"m1", MessageRole.user, [], 1⟩, ⟨"m2", MessageRole.assistant, [], 2⟩,
        ⟨"m3", MessageRole.user, [], 3⟩] =
      (Except.ok [],
        [[⟨"m1", MessageRole.user, [], 1⟩, ⟨"m2", MessageRole.assistant, [], 2⟩,
            ⟨"m3", MessageRole.user, [], 3⟩],
          [⟨"m2", MessageRole.assistant, [], 2⟩, ⟨"m3", MessageRole.user, [], 3⟩]]) :=
  ⟨by decide, by decide,
    (C2_overflow_retry_drops_floor_half _ _ "token limit exceeded" (by decide) (by decide)).trans
      (by decide)⟩

/-- Claim C2 as stated is false: on a 3-message history whose full send
overflows, the code retries with the 2-message suffix (dropping `⌊3/2⌋ = 1`
message), not with the 1-message suffix the claimed `⌈3/2⌉ = 2` drop would
give. -/
theorem C2_counterexample_ceil_drop_is_wrong :
    (generateImageFromConversation
        (fun h =>
          if 3 ≤ h.length then Except.error "token limit exceeded"
          else Except.ok [])
        [⟨"m1", MessageRole.user, [], 1⟩, ⟨"m2", MessageRole.assistant, [], 2⟩,
          ⟨"m3", MessageRole.user, [], 3⟩]).2.get? 1 =
      some [⟨"m2", MessageRole.assistant, [], 2⟩, ⟨"m3", MessageRole.user, [], 3⟩] ∧
    ([⟨"m1", MessageRole.user, [], 1⟩, ⟨"m2", MessageRole.assistant, [], 2⟩,
          ⟨"m3", MessageRole.user, [], 3⟩] : List ConversationMessage).drop ((3 + 1) / 2) =
      [⟨"m3", MessageRole.user, [], 3⟩] ∧
    (some [⟨"m2", MessageRole.assistant, [], 2⟩, ⟨"m3", MessageRole.user, [], 3⟩] :
        Option (List ConversationMessage)) ≠
      some [⟨"m3", MessageRole.user, [], 3⟩] := by
  refine ⟨by decide, by decide, by decide⟩

/-! ### Theorems for claim C4 (response classification, thought summaries) -/

/-- The texts collected by the extraction loop from parts taking the text
branch. -/
def textsOf (l : List RespPart) : List String :=
  l.filterMap (fun p => if isTextBranch p then p.text else none)

/-- The outputs produced by the extraction loop for parts taking the text
branch. -/
def preOuts (l : List RespPart) : List MessageContent :=
  l.filterMap (fun p =>
    if isTextBranch p then
      some (MessageContent.text
        ⟨p.text.getD "", p.thought || truthyB (partSignature p), partSignature p⟩)
    else none)

theorem processParts_append (pre rest : List RespPart) (acc : List String)
    (h : ∀ p ∈ pre, isImageBranch p = false) :
    processParts acc (pre ++ rest) = preOuts pre ++ processParts (acc ++ textsOf pre) rest := by
  induction pre generalizing acc with
  | nil => simp [preOuts, textsOf]
  | cons p pre ih =>
    have hp : isImageBranch p = false := h p (List.mem_cons_self _ _)
    have hrest : ∀ q ∈ pre, isImageBranch q = false := fun q hq => h q (List.mem_cons_of_mem _ hq)
    by_cases ht : truthyB p.text
    · obtain ⟨t, htx⟩ : ∃ t, p.text = some t := by
        cases hx : p.text with
        | none => rw [hx] at ht; simp [truthyB] at ht
        | some t => exact ⟨t, rfl⟩
      simp only [List.cons_append, processParts, ht, if_true, List.append_eq]
      rw [ih _ hrest]
      rw [htx] at ht
      simp [preOuts, textsOf, isTextBranch, ht, htx, List.append_assoc, List.filterMap_cons]
    · have himg : (match p.inlineData with
          | some d => decide (d.data ≠ "")
          | none => false) = false := by
        have := hp
        unfold isImageBranch at this
        simpa [isTextBranch, ht] using this
      cases hdi : p.inlineData with
      | none =>
        simp only [List.cons_append, processParts, ht, Bool.false_eq_true, if_false, hdi,
          List.append_eq]
        rw [ih _ hrest]
        simp [preOuts, textsOf, isTextBranch, ht]
      | some idata =>
        have hdata : ¬ idata.data ≠ "" := by
          rw [hdi] at himg
          simpa using himg
        simp only [List.cons_append, processParts, ht, Bool.false_eq_true, if_false, hdi, hdata,
          List.append_eq]
        rw [ih _ hrest]
        simp [preOuts, textsOf, isTextBranch, ht]

/-- Claim C4, amended: for a provider response with no block signal whose
first candidate's parts are `pre ++ img :: post`, where `img` carries an
inline image payload (and no truthy text) and nothing in `pre` takes the
image branch, classification succeeds, and the resulting image part's
`thoughtSummaries` is exactly the list of texts of **all** preceding
text-branch parts — thought-marked or not — in order (absent when there are
none); the image's own continuation signature, read from either field
spelling, is captured on that part. -/
theorem C4_image_collects_all_preceding_texts
    (pre post : List RespPart) (img : RespPart) (idat : InlineData)
    (hpre : ∀ p ∈ pre, isImageBranch p = false)
    (himgtext : truthyB img.text = false)
    (hinline : img.inlineData = some idat)
    (hdata : idat.data ≠ "") :
    extractImageData ⟨[⟨some (pre ++ img :: post), none, []⟩], none⟩ =
      Except.ok
        (preOuts pre ++
          MessageContent.image
            ⟨"", (truthyStr idat.mimeType).getD "image/png",
              some ("data:" ++ (truthyStr idat.mimeType).getD "image/png" ++ ";base64," ++
                idat.data),
              false,
              (if (textsOf pre).isEmpty then none else some (textsOf pre)),
              partSignature img⟩ ::
            processParts (textsOf pre) post) := by
  have hblock :
      getBlockMessage ⟨[⟨some (pre ++ img :: post), none, []⟩], none⟩ = none := by
    simp [getBlockMessage, jsOrS, formatBlockReason]
  have hloop :
      processParts [] (pre ++ img :: post) =
        preOuts pre ++
          MessageContent.image
            ⟨"", (truthyStr idat.mimeType).getD "image/png",
              some ("data:" ++ (truthyStr idat.mimeType).getD "image/png" ++ ";base64," ++
                idat.data),
              false,
              (if (textsOf pre).isEmpty then none else some (textsOf pre)),
              partSignature img⟩ ::
            processParts (textsOf pre) post := by
    rw [processParts_append pre (img :: post) [] hpre]
    simp only [List.nil_append, processParts, himgtext, Bool.false_eq_true, if_false, hinline]
    rw [if_pos hdata]
  have hany :
      (preOuts pre ++
          MessageContent.image
            ⟨"", (truthyStr idat.mimeType).getD "image/png",
              some ("data:" ++ (truthyStr idat.mimeType).getD "image/png" ++ ";base64," ++
                idat.data),
              false,
              (if (textsOf pre).isEmpty then none else some (textsOf pre)),
              partSignature img⟩ ::
            processParts (textsOf pre) post).any isImageOut = true := by
    rw [List.any_eq_true]
    refine ⟨MessageContent.image
      ⟨"", (truthyStr idat.mimeType).getD "image/png",
        some ("data:" ++ (truthyStr idat.mimeType).getD "image/png" ++ ";base64," ++
          idat.data),
        false,
        (if (textsOf pre).isEmpty then none else some (textsOf pre)),
        partSignature img⟩, ?_, rfl⟩
    exact List.mem_append_right _ (List.mem_cons_self _ _)
  unfold extractImageData
  rw [hblock]
  simp only [List.head?_cons, Option.getD_some]
  rw [hloop, if_pos hany]

theorem C4_image_collects_all_preceding_texts_witness :
    (∀ p ∈ [(⟨some "t1", true, none, none, none⟩ : RespPart),
        ⟨some "t2", false, some "sig2", none, none⟩], isImageBranch p = false) ∧
    extractImageData
      ⟨[⟨some [⟨some "t1", true, none, none, none⟩,
            ⟨some "t2", false, some "sig2", none, none⟩,
            ⟨none, false, none, some "isig", some ⟨some "image/png", "IMG"⟩⟩], none, []⟩],
        none⟩ =
      Except.ok
        [MessageContent.text ⟨"t1", true, none⟩,
          MessageContent.text ⟨"t2", true, some "sig2"⟩,
          MessageContent.image
            ⟨"", "image/png", some "data:image/png;base64,IMG", false,
              some ["t1", "t2"], some "isig"⟩] :=
  ⟨by decide,
    (C4_image_collects_all_preceding_texts
        [⟨some "t1", true, none, none, none⟩, ⟨some "t2", false, some "sig2", none, none⟩]
        [] ⟨none, false, none, some "isig", some ⟨some "image/png", "IMG"⟩⟩
        ⟨some "image/png", "IMG"⟩ (by decide) (by decide) rfl (by decide)).trans
      (by decide)⟩

/-- Claim C4 as stated is false: a response whose parts are one plain,
non-thought-marked, unsigned text followed by an image classifies to success
with the image's `thoughtSummaries` equal to `["Here you go"]` — the text of
a part that is *not* thought-marked — whereas the claim requires the
summaries to collect only the preceding thought-marked parts (none here). -/
theorem C4_counterexample_plain_text_collected :
    extractImageData
      ⟨[⟨some [⟨some "Here you go", false, none, none, none⟩,
            ⟨none, false, none, none, some ⟨some "image/png", "IMG"⟩⟩], none, []⟩],
        none⟩ =
      Except.ok
        [MessageContent.text ⟨"Here you go", false, none⟩,
          MessageContent.image
            ⟨"", "image/png", some "data:image/png;base64,IMG", false,
              some ["Here you go"], none⟩] ∧
    (some ["Here you go"] : Option (List String)) ≠ none := by
  refine ⟨by decide, by decide⟩

/-! ### Storage model

The server-backed `FileSystemStorage` (the backend the conversation flows
use: it is the one exposing `init`/the three-argument `loadImageData` that
`ConversationStorage` and `ChatInterface` call) together with the routes of
`server.js` it talks to.  The state is the server's storage directory:
the conversations store, the legacy `generations.json` list, the
`input_images/` directory and the root-level generated image files, each an
association list from file name to base64 content.  `configured` is whether a
storage path is set (`resolveStorage` succeeds); handler flows only reach the
storage calls when it is, mirroring `ensureDirectoryAccess`. -/

structure ConversationsFile where
  version : String
  threads : List ConversationThread
deriving DecidableEq

structure LegacyGeneration where
  id : String
  prompt : String
  timestamp : Nat
  model : String
  temperature : Option Int := none
deriving DecidableEq

structure StoreState where
  configured : Bool := true
  conversations : Option ConversationsFile := none
  metadata : List LegacyGeneration := []
  inputAssets : List (String × String) := []
  generatedAssets : List (String × String) := []
deriving DecidableEq

/-- The document written when a store holds one (for stating properties of
the persisted collection). -/
def docOf (st : StoreState) : ConversationsFile :=
  st.conversations.getD ⟨"", []⟩

/-- `[...].sort((a, b) => b.updatedAt - a.updatedAt)`: stable descending sort
by `updatedAt` (modern engines' `Array.prototype.sort` is stable, as is
insertion sort with this relation). -/
def sortThreadsDesc (l : List ConversationThread) : List ConversationThread :=
  l.insertionSort (fun a b => b.updatedAt ≤ a.updatedAt)

def lookupFile (files : List (String × String)) (name : String) : Option String :=
  (files.find? (fun pr => pr.1 == name)).map (·.2)

def removeFile (files : List (String × String)) (name : String) : List (String × String) :=
  files.filter (fun pr => pr.1 != name)

def putFile (files : List (String × String)) (name data : String) : List (String × String) :=
  removeFile files name ++ [(name, data)]

namespace FileSystemStorage

/-- `mimeType.split('/')[1] || 'png'` (server.js `generatedImagePath`). -/
def extFromMime (mime : String) : String :=
  match ((splitChar '/' mime.data).get? 1).map String.mk with
  | some s => if s = "" then "png" else s
  | none => "png"

/-- Server-side filename of a generated image: prefix + id + mime-derived
extension. -/
def generatedFilename (imageId mime : String) : String :=
  "nano-banana-" ++ imageId ++ "." ++ extFromMime mime

def commonExts : List String := ["png", "jpg", "jpeg", "webp", "gif"]

def mimeForExt (e : String) : String :=
  "image/" ++ (if e = "jpg" then "jpeg" else e)

/-- `path.extname(p).replace('.', '').toLowerCase()`. -/
def extnameOf (name : String) : String :=
  let base := (splitChar '/' name.data).getLastD []
  match base.reverse.findIdx? (· == '.') with
  | none => ""
  | some k =>
    let dotPos := base.length - 1 - k
    if dotPos = 0 then "" else lowerString (String.mk (base.drop (dotPos + 1)))

/-- `findGeneratedImageFile` from server.js: exact mime-derived name, then
prefixed common extensions, then bare common extensions, then the id
verbatim. -/
def findGeneratedImageFile (files : List (String × String)) (imageId mime : String) :
    Option (String × String) :=
  let primary := generatedFilename imageId mime
  if (lookupFile files primary).isSome then some (primary, mime)
  else
    match (commonExts.map (fun e => ("nano-banana-" ++ imageId ++ "." ++ e, mimeForExt e))).find?
        (fun c => (lookupFile files c.1).isSome) with
    | some c => some c
    | none =>
      match (commonExts.map (fun e => (imageId ++ "." ++ e, mimeForExt e))).find?
          (fun c => (lookupFile files c.1).isSome) with
      | some c => some c
      | none =>
        if (lookupFile files imageId).isSome then
          let e := extnameOf imageId
          some (imageId, if e = "" then mime else mimeForExt e)
        else none

/-- `GET /api/images/:id`: input namespace first (with fallback into the
generated namespace), else generated-namespace resolution; `none` is a 404. -/
def serverGetImage (st : StoreState) (id : String) (isInput : Bool) (mime : String) :
    Option (String × String) :=
  if isInput then
    match lookupFile st.inputAssets id with
    | some d => some (d, mime)
    | none =>
      match findGeneratedImageFile st.generatedAssets id mime with
      | some c => (lookupFile st.generatedAssets c.1).map (fun d => (d, c.2))
      | none => none
  else
    match findGeneratedImageFile st.generatedAssets id mime with
    | some c => (lookupFile st.generatedAssets c.1).map (fun d => (d, c.2))
    | none => none

/-- Client `loadImageData(imageId, isInputImage, mimeType)` of the
server-backed backend: a 404 yields `''`, any other non-ok response (here:
unconfigured storage, a 500) throws. -/
def loadImageData (st : StoreState) (imageId : String) (isInput : Bool) (mime : String) :
    Except String String :=
  if st.configured then
    match serverGetImage st imageId isInput mime with
    | none => Except.ok ""
    | some pr => Except.ok pr.1
  else Except.error "Failed to load image data"

/-- Client `deleteInputImage`: fire-and-forget `DELETE`, never throws; the
server removes the file with `force: true`. -/
def deleteInputImage (st : StoreState) (imageId : String) : StoreState :=
  if st.configured then { st with inputAssets := removeFile st.inputAssets imageId } else st

/-- Client `deleteGeneratedImage(imageId, mimeType = 'image/png')`: removes
the single mime-derived filename, best effort. -/
def deleteGeneratedImage (st : StoreState) (imageId mime : String) : StoreState :=
  if st.configured then
    { st with generatedAssets := removeFile st.generatedAssets (generatedFilename imageId mime) }
  else st

def saveInputImage (st : StoreState) (imageId data : String) : StoreState :=
  if st.configured then { st with inputAssets := putFile st.inputAssets imageId data } else st

/-- Client `saveImage` for a generated image; returns the stored filename. -/
def saveImage (st : StoreState) (imageId data mime : String) : StoreState × String :=
  if st.configured then
    ({ st with generatedAssets := putFile st.generatedAssets (generatedFilename imageId mime) data },
      generatedFilename imageId mime)
  else (st, "")

def loadConversations (st : StoreState) : Option ConversationsFile :=
  if st.configured then st.conversations else none

def saveConversations (st : StoreState) (doc : ConversationsFile) : StoreState :=
  if st.configured then { st with conversations := some doc } else st

def loadMetadata (st : StoreState) : List LegacyGeneration :=
  if st.configured then st.metadata else []

end FileSystemStorage

/-! ### The browser File System Access backend (document backend)

The other `FileSystemStorage` implementation in `fileSystemStorage.ts`: a
picked directory handle over root files and an `input_images` directory.  Its
`loadImageData(imageId, isInputImage)` calls `getFileHandle` directly, which
rejects when the file does not exist. -/

structure DocDirectory where
  rootFiles : List (String × String) := []
  inputFiles : List (String × String) := []
deriving DecidableEq

structure DocState where
  directoryHandle : Option DocDirectory := none
deriving DecidableEq

namespace FileSystemStorageDoc

def loadImageData (st : DocState) (imageId : String) (isInput : Bool) : Except String String :=
  match st.directoryHandle with
  | none => Except.error "No directory selected"
  | some dir =>
    if isInput then
      match lookupFile dir.inputFiles imageId with
      | some d => Except.ok d
      | none => Except.error "NotFoundError"
    else
      match lookupFile dir.rootFiles ("nano-banana-" ++ imageId ++ ".png") with
      | some d => Except.ok d
      | none => Except.error "NotFoundError"

end FileSystemStorageDoc

/-! ### conversationStorage.ts -/

/-- `sanitizeThread`'s per-item mapping: image items get `url: undefined`,
everything else is kept (including `thoughtSummaries` and signatures). -/
def sanitizeContentItem : MessageContent → MessageContent
  | MessageContent.image ic => MessageContent.image { ic with url := none }
  | MessageContent.text tc => MessageContent.text tc

def sanitizeMessage (m : ConversationMessage) : ConversationMessage :=
  { m with content := m.content.map sanitizeContentItem }

/-- `sanitizeThread`: drops heavy inline message urls but — per its own
comment — keeps the thread-level `thumbnailUrl` (and every other top-level
field) intact. -/
def sanitizeThread (t : ConversationThread) : ConversationThread :=
  { t with messages := t.messages.map sanitizeMessage }

namespace ConversationStorage

def loadThreads (st : StoreState) : List ConversationThread :=
  match FileSystemStorage.loadConversations st with
  | none => []
  | some d => sortThreadsDesc d.threads

def getThread (st : StoreState) (threadId : String) : Option ConversationThread :=
  (loadThreads st).find? (fun t => t.id == threadId)

def saveAllThreads (st : StoreState) (threads : List ConversationThread) : StoreState :=
  FileSystemStorage.saveConversations st ⟨"2.0", threads.map sanitizeThread⟩

/-- The upsert step of `saveThread`: `findIndex` by id, then in-place
assignment if found, else `push`. -/
def upsertById (threads : List ConversationThread) (thread : ConversationThread) :
    List ConversationThread :=
  match threads.findIdx? (fun t => t.id == thread.id) with
  | some i => threads.set i thread
  | none => threads ++ [thread]

/-- `saveThread`: upsert by id into the loaded collection, re-sort by
`updatedAt` descending, keep the first `MAX_THREADS = 50`, write everything
back. -/
def saveThread (st : StoreState) (thread : ConversationThread) : StoreState :=
  let threads := loadThreads st
  saveAllThreads st ((sortThreadsDesc (upsertById threads thread)).take 50)

/-- The per-content-item body of `deleteThreadAssets`: input images are
deleted from the input namespace; generated images through
`deleteGeneratedImage(content.imageId)` — without a mime type, so at the
default `image/png`-derived name. -/
def deleteContentStep (acc : StoreState) (c : MessageContent) : StoreState :=
  match c with
  | MessageContent.image ic =>
    if ic.isInputImage then FileSystemStorage.deleteInputImage acc ic.imageId
    else FileSystemStorage.deleteGeneratedImage acc ic.imageId "image/png"
  | MessageContent.text _ => acc

/-- `deleteThreadAssets`: walk every message's content items and delete each
referenced image asset. -/
def deleteThreadAssets (st : StoreState) (thread : ConversationThread) : StoreState :=
  thread.messages.foldl (fun acc m => m.content.foldl deleteContentStep acc) st

def deleteThread (st : StoreState) (threadId : String) : StoreState :=
  let threads := loadThreads st
  let st1 :=
    match threads.find? (fun t => t.id == threadId) with
    | some t => deleteThreadAssets st t
    | none => st
  saveAllThreads st1 (threads.filter (fun t => t.id != threadId))

/-- One legacy generation becomes a two-message thread (user prompt, then
assistant image), preserving id and timestamp. -/
def legacyToThread (gen : LegacyGeneration) : ConversationThread :=
  { id := "thread_migrated_" ++ gen.id,
    messages :=
      [⟨"msg_" ++ gen.id ++ "_user", MessageRole.user,
          [MessageContent.text ⟨gen.prompt, false, none⟩], gen.timestamp⟩,
        ⟨"msg_" ++ gen.id ++ "_assistant", MessageRole.assistant,
          [MessageContent.image ⟨gen.id, "image/png", none, false, none, none⟩],
          gen.timestamp + 1⟩],
    thumbnailImageId := some gen.id,
    thumbnailUrl := none,
    lastMessagePreview := none,
    createdAt := gen.timestamp,
    updatedAt := gen.timestamp,
    model := gen.model,
    temperature := gen.temperature.getD 1 }

def migrateCore (st : StoreState) : StoreState :=
  let old := FileSystemStorage.loadMetadata st
  if old.isEmpty then st
  else saveAllThreads st (old.map legacyToThread)

/-- `migrateOldGenerations`: no-op when the store already carries the `'2.0'`
version tag, otherwise synthesize threads from the legacy list (no-op when
that is empty too) and write them wholesale. -/
def migrateOldGenerations (st : StoreState) : StoreState :=
  match FileSystemStorage.loadConversations st with
  | some d => if d.version = "2.0" then st else migrateCore st
  | none => migrateCore st

end ConversationStorage

/-! ### Theorems for claim C8 (migration idempotence) -/

/-- Claim C8, confirmed: the legacy migration is idempotent — running it
twice leaves the persisted store identical to running it once, because any
run that writes commits the `'2.0'` version tag and a store already carrying
that tag makes the next run a no-op (runs that write nothing leave the state
unchanged outright). -/
theorem C8_migration_idempotent (st : StoreState) :
    ConversationStorage.migrateOldGenerations (ConversationStorage.migrateOldGenerations st) =
      ConversationStorage.migrateOldGenerations st := by
  by_cases hc : st.configured = true
  · cases hcv : st.conversations with
    | some d =>
      by_cases hv : d.version = "2.0"
      · have h1 : ConversationStorage.migrateOldGenerations st = st := by
          unfold ConversationStorage.migrateOldGenerations
          simp [FileSystemStorage.loadConversations, hc, hcv, hv]
        rw [h1, h1]
      · cases hm : st.metadata with
        | nil =>
          have h1 : ConversationStorage.migrateOldGenerations st = st := by
            unfold ConversationStorage.migrateOldGenerations ConversationStorage.migrateCore
            simp [FileSystemStorage.loadConversations, FileSystemStorage.loadMetadata, hc, hcv,
              hv, hm]
          rw [h1, h1]
        | cons g gs =>
          have h1 : ConversationStorage.migrateOldGenerations st =
              { st with conversations := some (ConversationsFile.mk "2.0"
                    (((g :: gs).map ConversationStorage.legacyToThread).map sanitizeThread)) } := by
            unfold ConversationStorage.migrateOldGenerations ConversationStorage.migrateCore
              ConversationStorage.saveAllThreads
            simp [FileSystemStorage.loadConversations, FileSystemStorage.loadMetadata,
              FileSystemStorage.saveConversations, hc, hcv, hv, hm]
          rw [h1]
          unfold ConversationStorage.migrateOldGenerations
          simp [FileSystemStorage.loadConversations, hc]
    | none =>
      cases hm : st.metadata with
      | nil =>
        have h1 : ConversationStorage.migrateOldGenerations st = st := by
          unfold ConversationStorage.migrateOldGenerations ConversationStorage.migrateCore
          simp [FileSystemStorage.loadConversations, FileSystemStorage.loadMetadata, hc, hcv, hm]
        rw [h1, h1]
      | cons g gs =>
        have h1 : ConversationStorage.migrateOldGenerations st =
            { st with conversations := some (ConversationsFile.mk "2.0"
                  (((g :: gs).map ConversationStorage.legacyToThread).map sanitizeThread)) } := by
          unfold ConversationStorage.migrateOldGenerations ConversationStorage.migrateCore
            ConversationStorage.saveAllThreads
          simp [FileSystemStorage.loadConversations, FileSystemStorage.loadMetadata,
            FileSystemStorage.saveConversations, hc, hcv, hm]
        rw [h1]
        unfold ConversationStorage.migrateOldGenerations
        simp [FileSystemStorage.loadConversations, hc]
  · have hcf : st.configured = false := by
      simpa using hc
    have h1 : ConversationStorage.migrateOldGenerations st = st := by
      unfold ConversationStorage.migrateOldGenerations ConversationStorage.migrateCore
      simp [FileSystemStorage.loadConversations, FileSystemStorage.loadMetadata, hcf]
    rw [h1, h1]

/-! ### Theorems for claim C3 (saveThread: upsert, trim, and asset handling) -/

theorem mem_sortThreadsDesc {x : ConversationThread} {l : List ConversationThread} :
    x ∈ sortThreadsDesc l ↔ x ∈ l := by
  simp [sortThreadsDesc, List.mem_insertionSort]

theorem length_sortThreadsDesc (l : List ConversationThread) :
    (sortThreadsDesc l).length = l.length :=
  (List.perm_insertionSort _ l).length_eq

theorem ConversationStorage.saveAllThreads_eq (st : StoreState)
    (l : List ConversationThread) (hc : st.configured = true) :
    ConversationStorage.saveAllThreads st l =
      { st with conversations := some (ConversationsFile.mk "2.0" (l.map sanitizeThread)) } := by
  unfold ConversationStorage.saveAllThreads FileSystemStorage.saveConversations
  simp [hc]

theorem ConversationStorage.mem_upsertById {x : ConversationThread}
    {l : List ConversationThread} {t : ConversationThread}
    (h : x ∈ ConversationStorage.upsertById l t) : x = t ∨ x ∈ l := by
  unfold ConversationStorage.upsertById at h
  cases hidx : l.findIdx? (fun y => y.id == t.id) with
  | none =>
    rw [hidx] at h
    rcases List.mem_append.mp h with h1 | h1
    · exact Or.inr h1
    · simp at h1
      exact Or.inl h1
  | some i =>
    rw [hidx] at h
    rcases List.mem_or_eq_of_mem_set h with h1 | h1
    · exact Or.inr h1
    · exact Or.inl h1

theorem ConversationStorage.self_mem_upsertById (l : List ConversationThread)
    (t : ConversationThread) : t ∈ ConversationStorage.upsertById l t := by
  unfold ConversationStorage.upsertById
  cases hidx : l.findIdx? (fun y => y.id == t.id) with
  | none => simp
  | some i =>
    have hi : i < l.length := (List.findIdx?_eq_some_iff_findIdx_eq.mp hidx).1
    exact List.mem_set l i hi t

theorem ConversationStorage.length_upsertById_le (l : List ConversationThread)
    (t : ConversationThread) :
    (ConversationStorage.upsertById l t).length ≤ l.length + 1 := by
  unfold ConversationStorage.upsertById
  cases hidx : l.findIdx? (fun y => y.id == t.id) with
  | none => simp
  | some i => simp [List.length_set]

/-- Claim C3, amended: `saveThread` upserts by id and trims the persisted
collection to at most the 50 most-recently-updated threads, but performs no
asset garbage collection — the input and generated asset stores are left
untouched, so threads dropped by the trimming keep their image assets in
storage.  (Every persisted thread is the sanitised upserted thread or a
sanitised previously-loaded one, and the upserted thread itself survives
whenever fewer than 50 threads were stored.) -/
theorem C3_saveThread_upserts_trims_without_asset_gc (st : StoreState)
    (t : ConversationThread) (hc : st.configured = true) :
    (ConversationStorage.saveThread st t).inputAssets = st.inputAssets ∧
    (ConversationStorage.saveThread st t).generatedAssets = st.generatedAssets ∧
    (docOf (ConversationStorage.saveThread st t)).version = "2.0" ∧
    (docOf (ConversationStorage.saveThread st t)).threads.length ≤ 50 ∧
    (∀ x ∈ (docOf (ConversationStorage.saveThread st t)).threads,
      x = sanitizeThread t ∨ ∃ y ∈ ConversationStorage.loadThreads st, x = sanitizeThread y) ∧
    ((ConversationStorage.loadThreads st).length < 50 →
      sanitizeThread t ∈ (docOf (ConversationStorage.saveThread st t)).threads) := by
  have hsave : ConversationStorage.saveThread st t =
      { st with conversations := some (ConversationsFile.mk "2.0"
          (((sortThreadsDesc
              (ConversationStorage.upsertById (ConversationStorage.loadThreads st) t)).take
            50).map sanitizeThread)) } := by
    unfold ConversationStorage.saveThread
    rw [ConversationStorage.saveAllThreads_eq _ _ hc]
  refine ⟨by rw [hsave], by rw [hsave], by rw [hsave]; rfl, ?_, ?_, ?_⟩
  · rw [hsave]
    simp only [docOf, Option.getD_some]
    rw [List.length_map, List.length_take]
    exact le_trans (Nat.min_le_left _ _) (le_refl 50)
  · intro x hx
    rw [hsave] at hx
    simp only [docOf, Option.getD_some, List.mem_map] at hx
    obtain ⟨y, hy, hxy⟩ := hx
    have hy2 : y ∈ sortThreadsDesc
        (ConversationStorage.upsertById (ConversationStorage.loadThreads st) t) :=
      List.take_subset _ _ hy
    have hy3 := mem_sortThreadsDesc.mp hy2
    rcases ConversationStorage.mem_upsertById hy3 with h1 | h1
    · exact Or.inl (by rw [← hxy, h1])
    · exact Or.inr ⟨y, h1, hxy.symm⟩
  · intro hlen
    rw [hsave]
    simp only [docOf, Option.getD_some]
    have hle : (sortThreadsDesc
        (ConversationStorage.upsertById (ConversationStorage.loadThreads st) t)).length ≤ 50 := by
      rw [length_sortThreadsDesc]
      have := ConversationStorage.length_upsertById_le (ConversationStorage.loadThreads st) t
      omega
    rw [List.take_of_length_le hle]
    exact List.mem_map_of_mem _
      (mem_sortThreadsDesc.mpr (ConversationStorage.self_mem_upsertById _ t))

theorem C3_saveThread_upserts_trims_without_asset_gc_witness :
    (⟨true, none, [], [], [("nano-banana-g0.png", "D")]⟩ : StoreState).configured = true ∧
    ((ConversationStorage.saveThread
        ⟨true, none, [], [], [("nano-banana-g0.png", "D")]⟩
        ⟨"t0", [], none, none, none, 0, 7, "m", 1⟩).inputAssets = [] ∧
      (ConversationStorage.saveThread
        ⟨true, none, [], [], [("nano-banana-g0.png", "D")]⟩
        ⟨"t0", [], none, none, none, 0, 7, "m", 1⟩).generatedAssets =
          [("nano-banana-g0.png", "D")] ∧
      (docOf (ConversationStorage.saveThread
        ⟨true, none, [], [], [("nano-banana-g0.png", "D")]⟩
        ⟨"t0", [], none, none, none, 0, 7, "m", 1⟩)).version = "2.0" ∧
      (docOf (ConversationStorage.saveThread
        ⟨true, none, [], [], [("nano-banana-g0.png", "D")]⟩
        ⟨"t0", [], none, none, none, 0, 7, "m", 1⟩)).threads.length ≤ 50 ∧
      (∀ x ∈ (docOf (ConversationStorage.saveThread
          ⟨true, none, [], [], [("nano-banana-g0.png", "D")]⟩
          ⟨"t0", [], none, none, none, 0, 7, "m", 1⟩)).threads,
        x = sanitizeThread ⟨"t0", [], none, none, none, 0, 7, "m", 1⟩ ∨
          ∃ y ∈ ConversationStorage.loadThreads
              ⟨true, none, [], [], [("nano-banana-g0.png", "D")]⟩,
            x = sanitizeThread y) ∧
      ((ConversationStorage.loadThreads
          ⟨true, none, [], [], [("nano-banana-g0.png", "D")]⟩).length < 50 →
        sanitizeThread ⟨"t0", [], none, none, none, 0, 7, "m", 1⟩ ∈
          (docOf (ConversationStorage.saveThread
            ⟨true, none, [], [], [("nano-banana-g0.png", "D")]⟩
            ⟨"t0", [], none, none, none, 0, 7, "m", 1⟩)).threads)) :=
  ⟨rfl, C3_saveThread_upserts_trims_without_asset_gc
    ⟨true, none, [], [], [("nano-banana-g0.png", "D")]⟩
    ⟨"t0", [], none, none, none, 0, 7, "m", 1⟩ rfl⟩

/-- Concrete store for the C3 counterexample: 50 threads with `updatedAt`
0..49 — the oldest, `t0`, referencing generated image `g0`, whose asset file
is present — plus a fresh 51st thread to save. -/
def cexStoreC3 : StoreState :=
  ⟨true,
    some ⟨"2.0",
      (List.range 50).map (fun i =>
        ⟨"t" ++ toString i,
          (if i = 0 then
            [⟨"m0", MessageRole.assistant,
              [MessageContent.image ⟨"g0", "image/png", none, false, none, none⟩], 0⟩]
          else []),
          none, none, none, 0, i, "m", 1⟩)⟩,
    [], [], [("nano-banana-g0.png", "D")]⟩

def cexNewThreadC3 : ConversationThread :=
  ⟨"t50", [], none, none, none, 50, 50, "m", 1⟩

/-- Claim C3 as stated is false: saving a 51st thread trims the oldest thread
`t0` out of the persisted collection, yet the generated asset `t0`
references is not deleted — it is still in storage and still loadable. -/
theorem C3_counterexample_dropped_thread_assets_survive :
    ((ConversationStorage.loadThreads cexStoreC3).any (fun th => th.id == "t0")) = true ∧
    ((ConversationStorage.loadThreads
        (ConversationStorage.saveThread cexStoreC3 cexNewThreadC3)).all
      (fun th => th.id != "t0")) = true ∧
    (ConversationStorage.saveThread cexStoreC3 cexNewThreadC3).generatedAssets =
      [("nano-banana-g0.png", "D")] ∧
    FileSystemStorage.loadImageData
        (ConversationStorage.saveThread cexStoreC3 cexNewThreadC3) "g0" false "image/png" =
      Except.ok "D" := by
  refine ⟨by decide, by decide, by decide, by decide⟩

/-! ### Theorems for claim C5 (cascade deletion of thread assets) -/

/-- The input-image ids referenced by a list of content items. -/
def refInputIds (l : List MessageContent) : List String :=
  l.filterMap (fun c =>
    match c with
    | MessageContent.image ic => if ic.isInputImage then some ic.imageId else none
    | MessageContent.text _ => none)

/-- The generated-image file names `deleteThreadAssets` actually targets: the
default-mime (`image/png`) name for every referenced non-input image. -/
def refGenPngNames (l : List MessageContent) : List String :=
  l.filterMap (fun c =>
    match c with
    | MessageContent.image ic =>
      if ic.isInputImage then none
      else some (FileSystemStorage.generatedFilename ic.imageId "image/png")
    | MessageContent.text _ => none)

def threadInputIds (t : ConversationThread) : List String :=
  refInputIds (t.messages.map (·.content)).flatten

def threadGenPngNames (t : ConversationThread) : List String :=
  refGenPngNames (t.messages.map (·.content)).flatten

theorem contentDeleteFold_spec (l : List MessageContent) (st : StoreState)
    (hc : st.configured = true) :
    (l.foldl ConversationStorage.deleteContentStep st).configured = st.configured ∧
    (l.foldl ConversationStorage.deleteContentStep st).conversations = st.conversations ∧
    (∀ pr, pr ∈ (l.foldl ConversationStorage.deleteContentStep st).inputAssets ↔
      (pr ∈ st.inputAssets ∧ pr.1 ∉ refInputIds l)) ∧
    (∀ pr, pr ∈ (l.foldl ConversationStorage.deleteContentStep st).generatedAssets ↔
      (pr ∈ st.generatedAssets ∧ pr.1 ∉ refGenPngNames l)) := by
  induction l generalizing st with
  | nil => simp [refInputIds, refGenPngNames]
  | cons c rest ih =>
    cases c with
    | text tc =>
      simp only [List.foldl_cons, ConversationStorage.deleteContentStep]
      have h := ih st hc
      obtain ⟨h1, h2, h3, h4⟩ := h
      refine ⟨h1, h2, ?_, ?_⟩
      · intro pr
        rw [h3 pr]
        simp [refInputIds, List.filterMap_cons]
      · intro pr
        rw [h4 pr]
        simp [refGenPngNames, List.filterMap_cons]
    | image ic =>
      by_cases hin : ic.isInputImage
      · have hstep : ConversationStorage.deleteContentStep st (MessageContent.image ic) =
            { st with inputAssets := removeFile st.inputAssets ic.imageId } := by
          simp [ConversationStorage.deleteContentStep, hin,
            FileSystemStorage.deleteInputImage, hc]
        simp only [List.foldl_cons, hstep]
        have h := ih { st with inputAssets := removeFile st.inputAssets ic.imageId } (by simp [hc])
        obtain ⟨h1, h2, h3, h4⟩ := h
        refine ⟨h1, h2, ?_, ?_⟩
        · intro pr
          rw [h3 pr]
          simp only [removeFile, List.mem_filter, bne_iff_ne]
          simp [refInputIds, List.filterMap_cons, hin, and_assoc, not_or]
        · intro pr
          rw [h4 pr]
          simp [refGenPngNames, List.filterMap_cons, hin]
      · have hstep : ConversationStorage.deleteContentStep st (MessageContent.image ic) =
            StoreState.mk st.configured st.conversations st.metadata st.inputAssets
              (removeFile st.generatedAssets
                (FileSystemStorage.generatedFilename ic.imageId "image/png")) := by
          simp [ConversationStorage.deleteContentStep, hin,
            FileSystemStorage.deleteGeneratedImage, hc]
        simp only [List.foldl_cons, hstep]
        have h := ih
          (StoreState.mk st.configured st.conversations st.metadata st.inputAssets
            (removeFile st.generatedAssets
              (FileSystemStorage.generatedFilename ic.imageId "image/png")))
          (by simp [hc])
        obtain ⟨h1, h2, h3, h4⟩ := h
        refine ⟨h1, h2, ?_, ?_⟩
        · intro pr
          rw [h3 pr]
          simp [refInputIds, List.filterMap_cons, hin]
        · intro pr
          rw [h4 pr]
          simp only [removeFile, List.mem_filter, bne_iff_ne]
          simp [refGenPngNames, List.filterMap_cons, hin, and_assoc, not_or]

theorem deleteThreadAssets_spec (t : ConversationThread) (st : StoreState)
    (hc : st.configured = true) :
    (ConversationStorage.deleteThreadAssets st t).configured = st.configured ∧
    (ConversationStorage.deleteThreadAssets st t).conversations = st.conversations ∧
    (∀ pr, pr ∈ (ConversationStorage.deleteThreadAssets st t).inputAssets ↔
      (pr ∈ st.inputAssets ∧ pr.1 ∉ threadInputIds t)) ∧
    (∀ pr, pr ∈ (ConversationStorage.deleteThreadAssets st t).generatedAssets ↔
      (pr ∈ st.generatedAssets ∧ pr.1 ∉ threadGenPngNames t)) := by
  unfold ConversationStorage.deleteThreadAssets threadInputIds threadGenPngNames
  generalize t.messages = msgs
  induction msgs generalizing st with
  | nil => simp [refInputIds, refGenPngNames]
  | cons m rest ih =>
    simp only [List.foldl_cons]
    obtain ⟨g1, g2, g3, g4⟩ := contentDeleteFold_spec m.content st hc
    obtain ⟨h1, h2, h3, h4⟩ := ih (m.content.foldl ConversationStorage.deleteContentStep st)
      (by rw [g1]; exact hc)
    refine ⟨h1.trans g1, h2.trans g2, ?_, ?_⟩
    · intro pr
      rw [h3 pr, g3 pr]
      simp [refInputIds, List.filterMap_append, and_assoc, not_or]
    · intro pr
      rw [h4 pr, g4 pr]
      simp [refGenPngNames, List.filterMap_append, and_assoc, not_or]

/-- Claim C5, amended: deleting a stored thread removes the record and
cascades asset deletion by id — every referenced input image is removed from
the input namespace, and every referenced generated image is removed **under
its default `image/png`-derived file name only** (a generated asset persisted
under a different mime-derived extension is not touched and remains
resolvable through the extension fallback); deletion is best effort and
total, so already-missing files cause no error. -/
theorem C5_deleteThread_cascades_by_default_png_name (st : StoreState) (tid : String)
    (t : ConversationThread) (hc : st.configured = true)
    (hfind : (ConversationStorage.loadThreads st).find? (fun th => th.id == tid) = some t) :
    (∀ pr, pr ∈ (ConversationStorage.deleteThread st tid).inputAssets ↔
      (pr ∈ st.inputAssets ∧ pr.1 ∉ threadInputIds t)) ∧
    (∀ pr, pr ∈ (ConversationStorage.deleteThread st tid).generatedAssets ↔
      (pr ∈ st.generatedAssets ∧ pr.1 ∉ threadGenPngNames t)) ∧
    (∀ th ∈ ConversationStorage.loadThreads (ConversationStorage.deleteThread st tid),
      th.id ≠ tid) := by
  obtain ⟨g1, g2, g3, g4⟩ := deleteThreadAssets_spec t st hc
  have hdel : ConversationStorage.deleteThread st tid =
      ConversationStorage.saveAllThreads (ConversationStorage.deleteThreadAssets st t)
        ((ConversationStorage.loadThreads st).filter (fun th => th.id != tid)) := by
    simp only [ConversationStorage.deleteThread]
    rw [hfind]
  have hcfg1 : (ConversationStorage.deleteThreadAssets st t).configured = true := by
    rw [g1]; exact hc
  have hsave := ConversationStorage.saveAllThreads_eq
    (ConversationStorage.deleteThreadAssets st t)
    ((ConversationStorage.loadThreads st).filter (fun th => th.id != tid)) hcfg1
  rw [hdel, hsave]
  refine ⟨fun pr => g3 pr, fun pr => g4 pr, ?_⟩
  intro th hth
  have hmem0 : th ∈ sortThreadsDesc (((ConversationStorage.loadThreads st).filter
      (fun x => x.id != tid)).map sanitizeThread) := by
    simpa [ConversationStorage.loadThreads, FileSystemStorage.loadConversations, hcfg1]
      using hth
  obtain ⟨y, hy, hysan⟩ := List.mem_map.mp (mem_sortThreadsDesc.mp hmem0)
  have hyid := (List.mem_filter.mp hy).2
  intro hcontra
  rw [← hysan] at hcontra
  exact (bne_iff_ne.mp hyid) (by exact hcontra)

def c5WitnessThread : ConversationThread :=
  ⟨"t1",
    [⟨"m1", MessageRole.user,
        [MessageContent.image ⟨"i1", "image/png", none, true, none, none⟩], 0⟩,
      ⟨"m2", MessageRole.assistant,
        [MessageContent.image ⟨"g1", "image/png", none, false, none, none⟩], 1⟩],
    some "g1", none, none, 0, 1, "m", 1⟩

def c5WitnessStore : StoreState :=
  ⟨true, some ⟨"2.0", [c5WitnessThread]⟩, [], [("i1", "A")], [("nano-banana-g1.png", "B")]⟩

theorem C5_deleteThread_cascades_by_default_png_name_witness :
    c5WitnessStore.configured = true ∧
    (ConversationStorage.loadThreads c5WitnessStore).find? (fun th => th.id == "t1") =
      some c5WitnessThread ∧
    ((∀ pr, pr ∈ (ConversationStorage.deleteThread c5WitnessStore "t1").inputAssets ↔
        (pr ∈ c5WitnessStore.inputAssets ∧ pr.1 ∉ threadInputIds c5WitnessThread)) ∧
      (∀ pr, pr ∈ (ConversationStorage.deleteThread c5WitnessStore "t1").generatedAssets ↔
        (pr ∈ c5WitnessStore.generatedAssets ∧ pr.1 ∉ threadGenPngNames c5WitnessThread)) ∧
      (∀ th ∈ ConversationStorage.loadThreads (ConversationStorage.deleteThread c5WitnessStore "t1"),
        th.id ≠ "t1")) :=
  ⟨rfl, by decide,
    C5_deleteThread_cascades_by_default_png_name c5WitnessStore "t1" c5WitnessThread rfl
      (by decide)⟩

def cexThreadC5 : ConversationThread :=
  ⟨"t1",
    [⟨"m1", MessageRole.assistant,
        [MessageContent.image ⟨"g1", "image/jpeg", none, false, none, none⟩], 0⟩],
    some "g1", none, none, 0, 1, "m", 1⟩

/-- A store whose single thread references a generated image persisted with a
jpeg mime type, so its file name is `nano-banana-g1.jpeg`. -/
def cexStoreC5 : StoreState :=
  ⟨true, some ⟨"2.0", [cexThreadC5]⟩, [], [], [("nano-banana-g1.jpeg", "D")]⟩

/-- Claim C5 as stated is false: after deleting the thread, loading the
referenced image id still succeeds in both namespaces (not-found is the empty
result in this backend) for the jpeg mime type, because `deleteThreadAssets`
deleted only the `.png`-named file while the asset lives under `.jpeg` and
the lookup falls back through the common-extension list. -/
theorem C5_counterexample_jpeg_asset_survives_delete :
    FileSystemStorage.loadImageData (ConversationStorage.deleteThread cexStoreC5 "t1")
        "g1" false "image/jpeg" = Except.ok "D" ∧
    FileSystemStorage.loadImageData (ConversationStorage.deleteThread cexStoreC5 "t1")
        "g1" true "image/jpeg" = Except.ok "D" ∧
    (Except.ok "D" : Except String String) ≠ Except.ok "" ∧
    ConversationStorage.loadThreads (ConversationStorage.deleteThread cexStoreC5 "t1") = [] := by
  refine ⟨by decide, by decide, by decide, by decide⟩

/-! ### Theorems for claim C9 (backend equivalence at loadImageData) -/

/-- Claim C9, amended: the two backends are **not** observationally
equivalent at `loadImageData`.  The server-backed implementation signals a
missing image (input or generated) as an empty optional result and does not
throw once storage is configured, while the client-local document backend
raises a not-found error for a missing input image. -/
theorem C9_server_signals_gap_doc_backend_throws (st : StoreState) (dst : DocState)
    (dir : DocDirectory) (imageId mime : String)
    (hc : st.configured = true)
    (hmiss : FileSystemStorage.serverGetImage st imageId true mime = none)
    (hd : dst.directoryHandle = some dir)
    (hdmiss : lookupFile dir.inputFiles imageId = none) :
    FileSystemStorage.loadImageData st imageId true mime = Except.ok "" ∧
    FileSystemStorageDoc.loadImageData dst imageId true = Except.error "NotFoundError" := by
  constructor
  · unfold FileSystemStorage.loadImageData
    rw [hmiss]
    simp [hc]
  · unfold FileSystemStorageDoc.loadImageData
    rw [hd]
    simp [hdmiss]

theorem C9_server_signals_gap_doc_backend_throws_witness :
    (⟨true, none, [], [], []⟩ : StoreState).configured = true ∧
    FileSystemStorage.serverGetImage ⟨true, none, [], [], []⟩ "img1" true "image/png" = none ∧
    (⟨some ⟨[], []⟩⟩ : DocState).directoryHandle = some ⟨[], []⟩ ∧
    lookupFile (⟨[], []⟩ : DocDirectory).inputFiles "img1" = none ∧
    (FileSystemStorage.loadImageData ⟨true, none, [], [], []⟩ "img1" true "image/png" =
        Except.ok "" ∧
      FileSystemStorageDoc.loadImageData ⟨some ⟨[], []⟩⟩ "img1" true =
        Except.error "NotFoundError") :=
  ⟨rfl, by decide, rfl, by decide,
    C9_server_signals_gap_doc_backend_throws ⟨true, none, [], [], []⟩ ⟨some ⟨[], []⟩⟩ ⟨[], []⟩
      "img1" "image/png" rfl (by decide) rfl (by decide)⟩

/-- Claim C9 as stated is false: for the missing input image `img1` the
document backend throws (`NotFoundError`) while the server backend returns
the empty optional gap, so `loadImageData` does not return the same result in
both backends and one of them does throw. -/
theorem C9_counterexample_backends_differ_on_missing_input :
    FileSystemStorageDoc.loadImageData ⟨some ⟨[], []⟩⟩ "img1" true =
      Except.error "NotFoundError" ∧
    FileSystemStorage.loadImageData ⟨true, none, [], [], []⟩ "img1" true "image/png" =
      Except.ok "" ∧
    (Except.error "NotFoundError" : Except String String) ≠ Except.ok "" := by
  refine ⟨by decide, by decide, by decide⟩

/-! ### Theorems for claim C10 (sanitisation of persisted threads) -/

def contentUrlFree : MessageContent → Bool
  | MessageContent.image ic => ic.url.isNone
  | MessageContent.text _ => true

def threadUrlFree (t : ConversationThread) : Bool :=
  t.messages.all (fun m => m.content.all contentUrlFree)

def docUrlFree (d : ConversationsFile) : Bool :=
  d.threads.all threadUrlFree

theorem sanitizeThread_urlFree (t : ConversationThread) :
    threadUrlFree (sanitizeThread t) = true := by
  rw [threadUrlFree, List.all_eq_true]
  intro m hm
  obtain ⟨m0, _, rfl⟩ := List.mem_map.mp hm
  rw [List.all_eq_true]
  intro c hc
  obtain ⟨c0, _, rfl⟩ := List.mem_map.mp hc
  cases c0 <;> simp [sanitizeContentItem, contentUrlFree]

theorem saveAllThreads_urlFree (st : StoreState) (l : List ConversationThread)
    (hc : st.configured = true) :
    docUrlFree (docOf (ConversationStorage.saveAllThreads st l)) = true := by
  rw [ConversationStorage.saveAllThreads_eq st l hc]
  rw [docOf, Option.getD_some, docUrlFree, List.all_eq_true]
  intro th hth
  obtain ⟨y, _, rfl⟩ := List.mem_map.mp hth
  exact sanitizeThread_urlFree y

/-- Claim C10, amended: every write path to the persisted conversation store
(`saveThread`, `deleteThread`, and the migration when it writes at all)
sanitises the message content, so no persisted image content part carries an
inline `url` payload.  The thread-level `thumbnailUrl` field, however, is
deliberately kept by `sanitizeThread` and may carry an inline data url, so
the stored collection is not free of image bytes in general. -/
theorem C10_persisted_image_parts_have_no_inline_url (st : StoreState)
    (t : ConversationThread) (tid : String) (hc : st.configured = true) :
    docUrlFree (docOf (ConversationStorage.saveThread st t)) = true ∧
    docUrlFree (docOf (ConversationStorage.deleteThread st tid)) = true ∧
    (ConversationStorage.migrateOldGenerations st = st ∨
      docUrlFree (docOf (ConversationStorage.migrateOldGenerations st)) = true) := by
  refine ⟨?_, ?_, ?_⟩
  · simp only [ConversationStorage.saveThread]
    exact saveAllThreads_urlFree st _ hc
  · simp only [ConversationStorage.deleteThread]
    cases hf : (ConversationStorage.loadThreads st).find? (fun x => x.id == tid) with
    | none => exact saveAllThreads_urlFree st _ hc
    | some tt =>
      exact saveAllThreads_urlFree _ _ (by rw [(deleteThreadAssets_spec tt st hc).1]; exact hc)
  · simp only [ConversationStorage.migrateOldGenerations]
    cases hl : FileSystemStorage.loadConversations st with
    | some d =>
      by_cases hv : d.version = "2.0"
      · simp [hv]
      · simp only [hv, if_false]
        simp only [ConversationStorage.migrateCore]
        cases hm : FileSystemStorage.loadMetadata st with
        | nil => simp
        | cons g gs =>
          right
          simp only [List.isEmpty_cons, Bool.false_eq_true, if_false]
          exact saveAllThreads_urlFree st _ hc
    | none =>
      simp only [ConversationStorage.migrateCore]
      cases hm : FileSystemStorage.loadMetadata st with
      | nil => simp
      | cons g gs =>
        right
        simp only [List.isEmpty_cons, Bool.false_eq_true, if_false]
        exact saveAllThreads_urlFree st _ hc

theorem C10_persisted_image_parts_have_no_inline_url_witness :
    (⟨true, none, [], [], []⟩ : StoreState).configured = true ∧
    (docUrlFree (docOf (ConversationStorage.saveThread ⟨true, none, [], [], []⟩
        ⟨"t1", [], none, none, none, 0, 1, "m", 1⟩)) = true ∧
      docUrlFree (docOf (ConversationStorage.deleteThread ⟨true, none, [], [], []⟩ "t1")) =
        true ∧
      (ConversationStorage.migrateOldGenerations ⟨true, none, [], [], []⟩ =
          ⟨true, none, [], [], []⟩ ∨
        docUrlFree (docOf (ConversationStorage.migrateOldGenerations
          ⟨true, none, [], [], []⟩)) = true)) :=
  ⟨rfl, C10_persisted_image_parts_have_no_inline_url ⟨true, none, [], [], []⟩
    ⟨"t1", [], none, none, none, 0, 1, "m", 1⟩ "t1" rfl⟩

def cexThreadC10 : ConversationThread :=
  ⟨"t1", [], none, some "data:image/png;base64,QUJD", none, 0, 1, "m", 1⟩

/-- Claim C10 as stated is false: saving a thread whose `thumbnailUrl` is an
inline data url persists that url verbatim — the stored collection does
contain inline image bytes, so the inline url is not an in-memory-only
field. -/
theorem C10_counterexample_thumbnail_data_url_is_persisted :
    (docOf (ConversationStorage.saveThread ⟨true, none, [], [], []⟩ cexThreadC10)).threads.map
      (fun th => th.thumbnailUrl) = [some "data:image/png;base64,QUJD"] ∧
    isPrefixL "data:".data "data:image/png;base64,QUJD".data = true ∧
    (some "data:image/png;base64,QUJD" : Option String) ≠ none := by
  refine ⟨by decide, by decide, by decide⟩

/-! ### ChatInterface (Generator.tsx)

The component handlers are modelled as pure state-transition functions.  React
state setters are applied sequentially (functional updaters see the evolving
state, the closure variables see the values captured at invocation — what
matters for the post-send refresh in the `finally` blocks).  `createId`
(timestamp + randomness) is modelled by a fresh-id counter; every `Date.now()`
reading within one handler run is modelled as the single instant `now`.
`URL.createObjectURL` is modelled as an opaque `blob:`-prefixed string.  The
native folder picker is an external collaborator: `ensureDirectoryAccess`
succeeds exactly when storage is configured.  The write events record, in
order, each conversations-document write and each generation call the handler
issues. -/

structure FileModel where
  name : String
  fileType : String
  fileData : String
deriving DecidableEq

structure JsError where
  name : String := "Error"
  message : String
deriving DecidableEq

structure UIState where
  threads : List ConversationThread := []
  currentThread : Option ConversationThread := none
  messageInput : String := ""
  attachedImages : List FileModel := []
  errorMsg : Option String := none
  generating : List String := []
  aspectRatio : String := "1:1"
  imageSize : String := "1K"
  uiModel : String := "gemini-3-pro-image-preview"
  temperature : Int := 1
deriving DecidableEq

inductive UiEvent where
  | persist (doc : ConversationsFile)
  | generationCall (history : List ConversationMessage)
deriving DecidableEq

structure HandlerResult where
  store : StoreState
  ui : UIState
  resetKey : Bool
  events : List UiEvent
deriving DecidableEq

def mkId (pfx : String) (n : Nat) : String := pfx ++ "_id" ++ toString n

def getLastTextPreview (t : ConversationThread) : Option String :=
  match t.messages.getLast? with
  | none => none
  | some m =>
    match m.content.find? (fun c =>
      match c with
      | MessageContent.text _ => true
      | MessageContent.image _ => false) with
    | some (MessageContent.text tc) => some tc.text
    | _ => none

def loadImageUrl (st : StoreState) (imageId : String) (isInput : Bool) (mime : String) :
    Option String :=
  match FileSystemStorage.loadImageData st imageId isInput mime with
  | Except.error _ => none
  | Except.ok b => if b = "" then none else some ("data:" ++ mime ++ ";base64," ++ b)

def hydrateThread (st : StoreState) (t : ConversationThread) : ConversationThread :=
  { t with
    messages := t.messages.map (fun m =>
      { m with content := m.content.map (fun item =>
        match item with
        | MessageContent.image ic =>
          MessageContent.image
            { ic with url := loadImageUrl st ic.imageId ic.isInputImage ic.mimeType }
        | MessageContent.text tc => MessageContent.text tc) }),
    thumbnailUrl :=
      match t.thumbnailImageId with
      | some tid => loadImageUrl st tid false "image/png"
      | none => none,
    lastMessagePreview := getLastTextPreview t }

def settingsText (ar size : String) : String :=
  "[Image settings: aspect ratio " ++ ar ++ ", resolution " ++ size ++ "]"

/-- `file.name.split('.').pop() || 'png'`. -/
def fileExtension (name : String) : String :=
  let seg := (splitChar '.' name.data).getLastD []
  if seg.isEmpty then "png" else String.mk seg

/-- `buildUserMessage`: the composed text content (trimmed input plus the
image-settings suffix), then one input-image content per attachment, each
saved to the input namespace under a fresh id with the file extension
appended. -/
def buildUserMessage (st : StoreState) (ui : UIState) (now ctr : Nat) :
    ConversationMessage × StoreState × Nat :=
  let textPart : MessageContent :=
    if trimString ui.messageInput ≠ "" then
      MessageContent.text
        ⟨trimString ui.messageInput ++ "\n\n" ++ settingsText ui.aspectRatio ui.imageSize,
          false, none⟩
    else MessageContent.text ⟨settingsText ui.aspectRatio ui.imageSize, false, none⟩
  let step := fun (acc : List MessageContent × StoreState × Nat) (f : FileModel) =>
    let imageId := mkId "input" acc.2.2 ++ "." ++ fileExtension f.name
    (acc.1 ++ [MessageContent.image
        ⟨imageId, (if f.fileType = "" then "image/png" else f.fileType),
          some ("blob:" ++ f.name), true, none, none⟩],
      FileSystemStorage.saveInputImage acc.2.1 imageId f.fileData, acc.2.2 + 1)
  let folded := ui.attachedImages.foldl step ([], st, ctr)
  (⟨mkId "msg" folded.2.2, MessageRole.user, textPart :: folded.1, now⟩,
    folded.2.1, folded.2.2 + 1)

/-- `setThreads` update inside `persistThread`: upsert by id (unshift when
new), then re-sort by `updatedAt` descending. -/
def upsertOrUnshift (threads : List ConversationThread) (t : ConversationThread) :
    List ConversationThread :=
  match threads.findIdx? (fun x => x.id == t.id) with
  | some i => threads.set i t
  | none => t :: threads

def persistThreadUi (st : StoreState) (ui : UIState) (t : ConversationThread) :
    StoreState × UIState :=
  (ConversationStorage.saveThread st t,
    { ui with threads := sortThreadsDesc (upsertOrUnshift ui.threads t) })

/-- The `setThreads` update in `handleSendMessage` (replace in place when the
id exists, else unshift; the stored copy carries a recomputed preview). -/
def sendThreadsUpdate (threads : List ConversationThread) (wt : ConversationThread) :
    List ConversationThread :=
  match threads.findIdx? (fun x => x.id == wt.id) with
  | some i => threads.set i { wt with lastMessagePreview := getLastTextPreview wt }
  | none => { wt with lastMessagePreview := getLastTextPreview wt } :: threads

/-- The `Promise.all` post-processing of generated content: every image part
with a data url is written to generated storage under a fresh id; other parts
pass through. -/
def processGenerated (st : StoreState) (ctr : Nat) (parts : List MessageContent) :
    List MessageContent × StoreState × Nat :=
  parts.foldl
    (fun acc part =>
      match part with
      | MessageContent.image ic =>
        match ic.url with
        | some u =>
          if u ≠ "" then
            let base64Data := (((splitChar ',' u.data).get? 1).map String.mk).getD ""
            let imageId := mkId "gen" acc.2.2
            (acc.1 ++ [MessageContent.image { ic with imageId := imageId }],
              (FileSystemStorage.saveImage acc.2.1 imageId base64Data ic.mimeType).1,
              acc.2.2 + 1)
          else (acc.1 ++ [part], acc.2.1, acc.2.2)
        | none => (acc.1 ++ [part], acc.2.1, acc.2.2)
      | MessageContent.text _ => (acc.1 ++ [part], acc.2.1, acc.2.2))
    ([], st, ctr)

def firstImage (l : List MessageContent) : Option ImageContent :=
  match l.find? isImageOut with
  | some (MessageContent.image ic) => some ic
  | _ => none

def firstNonInputImage (l : List MessageContent) : Option ImageContent :=
  match l.find? (fun c =>
    match c with
    | MessageContent.image ic => !ic.isInputImage
    | MessageContent.text _ => false) with
  | some (MessageContent.image ic) => some ic
  | _ => none

/-- `getThumbnailFromMessages`: scan messages from the last one backwards for
the first non-input image content (content items scanned forward within a
message), falling back to the given pair. -/
def getThumbnailFromMessages (msgs : List ConversationMessage)
    (fallbackId fallbackUrl : Option String) : Option String × Option String :=
  match msgs.reverse.findSome? (fun m => firstNonInputImage m.content) with
  | some ic => (some ic.imageId, ic.url)
  | none => (fallbackId, fallbackUrl)

/-- The shared `finally` block of send/rerun: drop the thread id from the
generating set; when the thread viewed at invocation is the one just run,
reload its stored version and replace the current thread with its hydrated
form (the closure compares the captured `currentThread` against `threadId`,
which is that same thread's id, so the reload fires whenever a thread was
selected at invocation and is present in storage). -/
def finallyBlock (st : StoreState) (ui : UIState) (origCurrent : Option ConversationThread)
    (threadId : String) (resetKey : Bool) (events : List UiEvent) : HandlerResult :=
  let ui1 := { ui with generating := ui.generating.filter (fun x => x != threadId) }
  match origCurrent with
  | some t =>
    if t.id = threadId then
      match ConversationStorage.getThread st threadId with
      | some stored =>
        ⟨st, { ui1 with currentThread := some (hydrateThread st stored) }, resetKey, events⟩
      | none => ⟨st, ui1, resetKey, events⟩
    else ⟨st, ui1, resetKey, events⟩
  | none => ⟨st, ui1, resetKey, events⟩

/-- `handleSendMessage`.  `sendFn` abstracts `generateImageFromConversation`
(provider call, classification and overflow retry); a thrown error carries
its `name` and `message`. -/
def handleSendMessage (st : StoreState) (ui : UIState) (now ctr : Nat)
    (sendFn : List ConversationMessage → Except JsError (List MessageContent)) :
    HandlerResult :=
  let idPair : String × Nat :=
    match ui.currentThread with
    | some t => (t.id, ctr)
    | none => (mkId "thread" ctr, ctr + 1)
  let threadId := idPair.1
  if ui.generating.contains threadId then ⟨st, ui, false, []⟩
  else if trimString ui.messageInput = "" ∧ ui.attachedImages.isEmpty then ⟨st, ui, false, []⟩
  else if st.configured = false then
    ⟨st, { ui with errorMsg := some "Please select a save folder to continue." }, false, []⟩
  else
    let ui1 := { ui with generating := ui.generating ++ [threadId], errorMsg := none }
    let built := buildUserMessage st ui1 now idPair.2
    let userMessage := built.1
    let st1 := built.2.1
    let ctr2 := built.2.2
    let baseThread : ConversationThread :=
      match ui.currentThread with
      | some t => t
      | none => ⟨threadId, [], none, none, none, now, now, ui.uiModel, ui.temperature⟩
    let workingThread := { baseThread with messages := baseThread.messages ++ [userMessage] }
    let ui2 := { ui1 with currentThread :=
      match ui1.currentThread with
      | none => some workingThread
      | some prev => if prev.id = workingThread.id then some workingThread else some prev }
    let ui3 := { ui2 with messageInput := "", attachedImages := [] }
    let ui4 := { ui3 with threads := sendThreadsUpdate ui3.threads workingThread }
    match sendFn workingThread.messages with
    | Except.ok contentParts =>
      let processedR := processGenerated st1 ctr2 contentParts
      let processed := processedR.1
      let st2 := processedR.2.1
      let imagePart := firstImage processed
      let assistantMessage : ConversationMessage :=
        ⟨mkId "msg" processedR.2.2, MessageRole.assistant, processed, now⟩
      let updatedThread := { workingThread with
        messages := workingThread.messages ++ [assistantMessage],
        updatedAt := now,
        thumbnailImageId := jsOrS workingThread.thumbnailImageId (imagePart.map (·.imageId)),
        thumbnailUrl := jsOrS workingThread.thumbnailUrl (imagePart.bind (·.url)),
        lastMessagePreview := jsOrS (getLastTextPreview workingThread)
          (getLastTextPreview { workingThread with
            messages := workingThread.messages ++ [assistantMessage] }) }
      let persisted := persistThreadUi st2 ui4 updatedThread
      let st3 := persisted.1
      let ui5 := persisted.2
      let ui6 := { ui5 with currentThread :=
        match ui5.currentThread with
        | some prev => if prev.id = updatedThread.id then some updatedThread else some prev
        | none => none }
      finallyBlock st3 ui6 ui.currentThread threadId false
        [UiEvent.generationCall workingThread.messages, UiEvent.persist (docOf st3)]
    | Except.error e =>
      if e.name = "APIKeyError" then
        finallyBlock st1 ui4 ui.currentThread threadId true
          [UiEvent.generationCall workingThread.messages]
      else
        let ui5 := { ui4 with
          errorMsg := some (if e.message = "" then "Failed to generate image." else e.message) }
        finallyBlock st1 ui5 ui.currentThread threadId false
          [UiEvent.generationCall workingThread.messages]

def settingsMarker : List Char := "\n\n[Image settings: ".data

/-- Whether the regex `\n\n\[Image settings: .*\]$` matches the suffix
beginning here: the marker, then newline-free characters, then `]` at the
very end. -/
def matchesSettingsTailAt (cs : List Char) : Bool :=
  isPrefixL settingsMarker cs &&
    (let rest := cs.drop settingsMarker.length
     match rest.getLast? with
     | some ch => ch == ']' && rest.dropLast.all (fun c => c != '\n')
     | none => false)

def cleanIdx (cs : List Char) : Option Nat :=
  if matchesSettingsTailAt cs then some 0
  else
    match cs with
    | [] => none
    | _ :: rest => (cleanIdx rest).map (· + 1)

/-- `text.replace(/\n\n\[Image settings: .*\]$/, '')`: delete the first
(and, being end-anchored, only effective) match. -/
def cleanSettingsText (s : String) : String :=
  match cleanIdx s.data with
  | some i => String.mk (s.data.take i)
  | none => s

def dataUrlBase64 (u : String) : String :=
  (((splitChar ',' u.data).get? 1).map String.mk).getD ""

/-- The attachment extraction of the fork-at-zero path: for every image item,
take the base64 from its data url when present, else load it from storage
(failures and empty results are skipped), and rebuild a file named by the
image id. -/
def extractForkFiles (st : StoreState) (content : List MessageContent) : List FileModel :=
  content.foldl
    (fun files item =>
      match item with
      | MessageContent.image ic =>
        let base64 :=
          match ic.url with
          | some u =>
            if u ≠ "" ∧ isPrefixL "data:".data u.data then dataUrlBase64 u
            else
              match FileSystemStorage.loadImageData st ic.imageId ic.isInputImage ic.mimeType with
              | Except.ok b => b
              | Except.error _ => ""
          | none =>
            match FileSystemStorage.loadImageData st ic.imageId ic.isInputImage ic.mimeType with
            | Except.ok b => b
            | Except.error _ => ""
        if base64 ≠ "" then files ++ [⟨ic.imageId, ic.mimeType, base64⟩] else files
      | MessageContent.text _ => files)
    []

/-- `handleForkThread`. -/
def handleForkThread (st : StoreState) (ui : UIState) (messageId : String) (now ctr : Nat) :
    HandlerResult :=
  match ui.currentThread with
  | none => ⟨st, ui, false, []⟩
  | some cur =>
    if st.configured = false then
      ⟨st, { ui with errorMsg := some "Please select a save folder to continue." }, false, []⟩
    else
      match cur.messages.findIdx? (fun m => m.id == messageId) with
      | none => ⟨st, ui, false, []⟩
      | some k =>
        match cur.messages.get? k with
        | none => ⟨st, ui, false, []⟩
        | some mAt =>
          if k = 0 ∧ mAt.role = MessageRole.user then
            let newInput :=
              match mAt.content.find? (fun c =>
                match c with
                | MessageContent.text _ => true
                | MessageContent.image _ => false) with
              | some (MessageContent.text tc) => cleanSettingsText tc.text
              | _ => ""
            ⟨st,
              { ui with
                messageInput := newInput,
                attachedImages := extractForkFiles st mAt.content,
                currentThread := none },
              false, []⟩
          else
            let forkMessages := cur.messages.take (k + 1)
            let thumb := getThumbnailFromMessages forkMessages cur.thumbnailImageId
              cur.thumbnailUrl
            let preview := getLastTextPreview { cur with messages := forkMessages }
            let forked : ConversationThread :=
              ⟨mkId "thread" ctr, forkMessages, thumb.1, thumb.2, preview, now, now,
                cur.model, cur.temperature⟩
            let persisted := persistThreadUi st ui forked
            ⟨persisted.1,
              { persisted.2 with
                currentThread := some forked,
                messageInput := "",
                attachedImages := [] },
              false, [UiEvent.persist (docOf persisted.1)]⟩

/-- `handleRerunFromMessage`. -/
def handleRerunFromMessage (st : StoreState) (ui : UIState) (messageId : String)
    (now ctr : Nat)
    (sendFn : List ConversationMessage → Except JsError (List MessageContent)) :
    HandlerResult :=
  match ui.currentThread with
  | none => ⟨st, ui, false, []⟩
  | some cur =>
    if ui.generating.contains cur.id then ⟨st, ui, false, []⟩
    else
      match cur.messages.findIdx? (fun m => m.id == messageId) with
      | none => ⟨st, ui, false, []⟩
      | some k =>
        match cur.messages.get? k with
        | none => ⟨st, ui, false, []⟩
        | some target =>
          if target.role ≠ MessageRole.user then ⟨st, ui, false, []⟩
          else if st.configured = false then
            ⟨st, { ui with errorMsg := some "Please select a save folder to continue." },
              false, []⟩
          else
            let ui1 := { ui with generating := ui.generating ++ [cur.id], errorMsg := none }
            let truncatedMessages := cur.messages.take (k + 1)
            let thumb := getThumbnailFromMessages truncatedMessages cur.thumbnailImageId
              cur.thumbnailUrl
            let preview := getLastTextPreview { cur with messages := truncatedMessages }
            let baseThread := { cur with
              messages := truncatedMessages, updatedAt := now,
              thumbnailImageId := thumb.1, thumbnailUrl := thumb.2,
              lastMessagePreview := preview }
            let persisted1 := persistThreadUi st ui1 baseThread
            let st1 := persisted1.1
            let ui2 := persisted1.2
            let ui3 := { ui2 with currentThread :=
              match ui2.currentThread with
              | some prev => if prev.id = baseThread.id then some baseThread else some prev
              | none => none }
            match sendFn baseThread.messages with
            | Except.ok contentParts =>
              let processedR := processGenerated st1 ctr contentParts
              let processed := processedR.1
              let st2 := processedR.2.1
              let assistantMessage : ConversationMessage :=
                ⟨mkId "msg" processedR.2.2, MessageRole.assistant, processed, now⟩
              let updatedMessages := baseThread.messages ++ [assistantMessage]
              let thumb2 := getThumbnailFromMessages updatedMessages baseThread.thumbnailImageId
                baseThread.thumbnailUrl
              let updatedThread := { baseThread with
                messages := updatedMessages, updatedAt := now,
                thumbnailImageId := thumb2.1, thumbnailUrl := thumb2.2,
                lastMessagePreview := jsOrS
                  (getLastTextPreview { baseThread with messages := updatedMessages }) preview }
              let persisted2 := persistThreadUi st2 ui3 updatedThread
              let st3 := persisted2.1
              let ui4 := persisted2.2
              let ui5 := { ui4 with currentThread :=
                match ui4.currentThread with
                | some prev => if prev.id = updatedThread.id then some updatedThread else some prev
                | none => none }
              finallyBlock st3 ui5 ui.currentThread cur.id false
                [UiEvent.persist (docOf st1), UiEvent.generationCall baseThread.messages,
                  UiEvent.persist (docOf st3)]
            | Except.error e =>
              if e.name = "APIKeyError" then
                finallyBlock st1 ui3 ui.currentThread cur.id true
                  [UiEvent.persist (docOf st1), UiEvent.generationCall baseThread.messages]
              else
                finallyBlock st1
                  { ui3 with errorMsg := some (if e.message = "" then
                      "Failed to regenerate from this message." else e.message) }
                  ui.currentThread cur.id false
                  [UiEvent.persist (docOf st1), UiEvent.generationCall baseThread.messages]

/-! ### Theorems for claim C1 (failed send preserves the user's message) -/

def c1Thread : ConversationThread :=
  ⟨"t1",
    [⟨"u1", MessageRole.user, [MessageContent.text ⟨"draw a cat", false, none⟩], 1⟩,
      ⟨"a1", MessageRole.assistant, [MessageContent.text ⟨"ok", false, none⟩], 2⟩],
    none, none, none, 1, 2, "m", 1⟩

def c1Store : StoreState := ⟨true, some ⟨"2.0", [c1Thread]⟩, [], [], []⟩

def c1Ui : UIState := ⟨[c1Thread], some c1Thread, "hi", [], none, [], "1:1", "1K", "m", 1⟩

/-- Claim C1 fails on the code: sending "hi" on the already-persisted
two-message thread `t1` with a failing generation surfaces the typed error,
but the `finally` block then reloads the stored thread (which never received
the new message, since persistence only happens on success) and replaces the
working thread with it — the final current thread has only the original two
messages, the input box is already cleared, and nothing was persisted.  The
user's just-composed message is silently discarded. -/
theorem C1_failed_send_on_persisted_thread_drops_user_message :
    (handleSendMessage c1Store c1Ui 100 0
        (fun _ => Except.error ⟨"Error", "boom"⟩)).ui.errorMsg = some "boom" ∧
    ((handleSendMessage c1Store c1Ui 100 0
        (fun _ => Except.error ⟨"Error", "boom"⟩)).ui.currentThread.map
      (fun t => t.messages.map (fun m => m.id))) = some ["u1", "a1"] ∧
    (handleSendMessage c1Store c1Ui 100 0
        (fun _ => Except.error ⟨"Error", "boom"⟩)).ui.messageInput = "" ∧
    (handleSendMessage c1Store c1Ui 100 0
        (fun _ => Except.error ⟨"Error", "boom"⟩)).store = c1Store := by
  refine ⟨by decide, by decide, by decide, by decide⟩

/-! ### Theorems for claims C6 and C7 (rerun and fork) -/

theorem finallyBlock_events (st : StoreState) (ui : UIState)
    (o : Option ConversationThread) (tid : String) (r : Bool) (evs : List UiEvent) :
    (finallyBlock st ui o tid r evs).events = evs := by
  unfold finallyBlock
  cases o with
  | none => rfl
  | some t =>
    by_cases h : t.id = tid
    · cases hg : ConversationStorage.getThread st tid <;> simp [h, hg]
    · simp [h]

theorem sanitize_mem_saveThread_doc (st : StoreState) (t : ConversationThread)
    (hc : st.configured = true) (hlen : (ConversationStorage.loadThreads st).length < 50) :
    sanitizeThread t ∈ (docOf (ConversationStorage.saveThread st t)).threads := by
  have hsave : ConversationStorage.saveThread st t =
      { st with conversations := some (ConversationsFile.mk "2.0"
          (((sortThreadsDesc (ConversationStorage.upsertById
              (ConversationStorage.loadThreads st) t)).take 50).map sanitizeThread)) } := by
    unfold ConversationStorage.saveThread
    rw [ConversationStorage.saveAllThreads_eq _ _ hc]
  rw [hsave]
  simp only [docOf, Option.getD_some]
  have hle : (sortThreadsDesc (ConversationStorage.upsertById
      (ConversationStorage.loadThreads st) t)).length ≤ 50 := by
    rw [length_sortThreadsDesc]
    have := ConversationStorage.length_upsertById_le (ConversationStorage.loadThreads st) t
    omega
  rw [List.take_of_length_le hle]
  exact List.mem_map_of_mem _
    (mem_sortThreadsDesc.mpr (ConversationStorage.self_mem_upsertById _ t))

/-- Claim C6, confirmed: `rerun` is a no-op unless the targeted message has
role user; when it proceeds, the very first write is the persistence of the
thread truncated in place to `messages[0..k]` (same thread id, sanitised
messages equal to the truncated prefix), and only after that write is the
generation call issued on exactly the truncated history — so an interruption
during regeneration leaves the consistent shorter thread behind. -/
theorem C6_rerun_requires_user_and_persists_truncation_before_generation
    (st : StoreState) (ui : UIState) (cur : ConversationThread) (messageId : String)
    (k : Nat) (target : ConversationMessage) (now ctr : Nat)
    (sendFn : List ConversationMessage → Except JsError (List MessageContent))
    (hcur : ui.currentThread = some cur)
    (hgen : ui.generating.contains cur.id = false)
    (hidx : cur.messages.findIdx? (fun m => m.id == messageId) = some k)
    (hget : cur.messages.get? k = some target)
    (hc : st.configured = true)
    (hlen : (ConversationStorage.loadThreads st).length < 50) :
    (target.role ≠ MessageRole.user →
      handleRerunFromMessage st ui messageId now ctr sendFn = ⟨st, ui, false, []⟩) ∧
    (target.role = MessageRole.user →
      ∃ d rest,
        (handleRerunFromMessage st ui messageId now ctr sendFn).events =
          UiEvent.persist d :: UiEvent.generationCall (cur.messages.take (k + 1)) :: rest ∧
        ∃ t' ∈ d.threads, t'.id = cur.id ∧
          t'.messages = (cur.messages.take (k + 1)).map sanitizeMessage) := by
  have hget' : cur.messages[k]? = some target := by
    simpa using hget
  constructor
  · intro hrole
    unfold handleRerunFromMessage
    simp [hcur, hgen, hidx, hget', hrole]
  · intro hrole
    have hng : ¬(ui.generating.contains cur.id = true) := by
      rw [hgen]
      exact Bool.false_ne_true
    have hnr : ¬(target.role ≠ MessageRole.user) := by simp [hrole]
    have hncfg : ¬(st.configured = false) := by simp [hc]
    unfold handleRerunFromMessage
    simp only [hcur]
    rw [if_neg hng]
    simp only [hidx, hget]
    rw [if_neg hnr, if_neg hncfg]
    split
    · rw [finallyBlock_events]
      exact ⟨_, _, rfl,
        ⟨sanitizeThread { cur with
            messages := cur.messages.take (k + 1), updatedAt := now,
            thumbnailImageId := (getThumbnailFromMessages (cur.messages.take (k + 1))
              cur.thumbnailImageId cur.thumbnailUrl).1,
            thumbnailUrl := (getThumbnailFromMessages (cur.messages.take (k + 1))
              cur.thumbnailImageId cur.thumbnailUrl).2,
            lastMessagePreview := getLastTextPreview
              { cur with messages := cur.messages.take (k + 1) } },
          sanitize_mem_saveThread_doc st _ hc hlen, rfl, rfl⟩⟩
    · split
      · rw [finallyBlock_events]
        exact ⟨_, _, rfl,
          ⟨sanitizeThread { cur with
              messages := cur.messages.take (k + 1), updatedAt := now,
              thumbnailImageId := (getThumbnailFromMessages (cur.messages.take (k + 1))
                cur.thumbnailImageId cur.thumbnailUrl).1,
              thumbnailUrl := (getThumbnailFromMessages (cur.messages.take (k + 1))
                cur.thumbnailImageId cur.thumbnailUrl).2,
              lastMessagePreview := getLastTextPreview
                { cur with messages := cur.messages.take (k + 1) } },
            sanitize_mem_saveThread_doc st _ hc hlen, rfl, rfl⟩⟩
      · rw [finallyBlock_events]
        exact ⟨_, _, rfl,
          ⟨sanitizeThread { cur with
              messages := cur.messages.take (k + 1), updatedAt := now,
              thumbnailImageId := (getThumbnailFromMessages (cur.messages.take (k + 1))
                cur.thumbnailImageId cur.thumbnailUrl).1,
              thumbnailUrl := (getThumbnailFromMessages (cur.messages.take (k + 1))
                cur.thumbnailImageId cur.thumbnailUrl).2,
              lastMessagePreview := getLastTextPreview
                { cur with messages := cur.messages.take (k + 1) } },
            sanitize_mem_saveThread_doc st _ hc hlen, rfl, rfl⟩⟩

def c6Thread : ConversationThread :=
  ⟨"t1",
    [⟨"u1", MessageRole.user, [MessageContent.text ⟨"draw", false, none⟩], 1⟩,
      ⟨"a1", MessageRole.assistant, [], 2⟩],
    none, none, none, 1, 2, "m", 1⟩

def c6Store : StoreState := ⟨true, some ⟨"2.0", [c6Thread]⟩, [], [], []⟩

def c6Ui : UIState := ⟨[c6Thread], some c6Thread, "", [], none, [], "1:1", "1K", "m", 1⟩

theorem C6_rerun_requires_user_and_persists_truncation_before_generation_witness :
    c6Ui.currentThread = some c6Thread ∧
    c6Ui.generating.contains c6Thread.id = false ∧
    c6Thread.messages.findIdx? (fun m => m.id == "u1") = some 0 ∧
    c6Thread.messages.get? 0 =
      some ⟨"u1", MessageRole.user, [MessageContent.text ⟨"draw", false, none⟩], 1⟩ ∧
    c6Store.configured = true ∧
    (ConversationStorage.loadThreads c6Store).length < 50 ∧
    (((⟨"u1", MessageRole.user, [MessageContent.text ⟨"draw", false, none⟩], 1⟩ :
          ConversationMessage).role ≠ MessageRole.user →
        handleRerunFromMessage c6Store c6Ui "u1" 9 0
          (fun _ => Except.error ⟨"Error", "boom"⟩) = ⟨c6Store, c6Ui, false, []⟩) ∧
      ((⟨"u1", MessageRole.user, [MessageContent.text ⟨"draw", false, none⟩], 1⟩ :
          ConversationMessage).role = MessageRole.user →
        ∃ d rest,
          (handleRerunFromMessage c6Store c6Ui "u1" 9 0
            (fun _ => Except.error ⟨"Error", "boom"⟩)).events =
            UiEvent.persist d ::
              UiEvent.generationCall (c6Thread.messages.take (0 + 1)) :: rest ∧
          ∃ t' ∈ d.threads, t'.id = c6Thread.id ∧
            t'.messages = (c6Thread.messages.take (0 + 1)).map sanitizeMessage)) :=
  ⟨rfl, by decide, by decide, by decide, rfl, by decide,
    C6_rerun_requires_user_and_persists_truncation_before_generation c6Store c6Ui c6Thread
      "u1" 0 ⟨"u1", MessageRole.user, [MessageContent.text ⟨"draw", false, none⟩], 1⟩ 9 0
      (fun _ => Except.error ⟨"Error", "boom"⟩) rfl (by decide) (by decide) (by decide) rfl
      (by decide)⟩

/-- Claim C7, amended: fork at message index 0 creates and persists nothing
**when the first message has role user** — it only extracts the first
message's cleaned text and images into fresh input state for a new empty
conversation, leaving the store, the thread list and the event log untouched.
(When the first message is not a user message, the general fork path runs
instead and persists a one-message copy.) -/
theorem C7_fork_at_zero_on_user_message_persists_nothing
    (st : StoreState) (ui : UIState) (cur : ConversationThread) (messageId : String)
    (m0 : ConversationMessage) (now ctr : Nat)
    (hcur : ui.currentThread = some cur)
    (hc : st.configured = true)
    (hidx : cur.messages.findIdx? (fun m => m.id == messageId) = some 0)
    (hget : cur.messages.get? 0 = some m0)
    (hrole : m0.role = MessageRole.user) :
    handleForkThread st ui messageId now ctr =
      ⟨st,
        { ui with
          messageInput :=
            (match m0.content.find? (fun c =>
              match c with
              | MessageContent.text _ => true
              | MessageContent.image _ => false) with
            | some (MessageContent.text tc) => cleanSettingsText tc.text
            | _ => ""),
          attachedImages := extractForkFiles st m0.content,
          currentThread := none },
        false, []⟩ := by
  have hget' : cur.messages[0]? = some m0 := by
    simpa using hget
  unfold handleForkThread
  simp [hcur, hc, hidx, hget', hrole]

def c7Thread : ConversationThread :=
  ⟨"t1",
    [⟨"u1", MessageRole.user,
        [MessageContent.text
          ⟨"draw a cat\n\n[Image settings: aspect ratio 1:1, resolution 1K]", false, none⟩],
        1⟩],
    none, none, none, 1, 1, "m", 1⟩

def c7Ui : UIState := ⟨[c7Thread], some c7Thread, "", [], none, [], "1:1", "1K", "m", 1⟩

theorem C7_fork_at_zero_on_user_message_persists_nothing_witness :
    c7Ui.currentThread = some c7Thread ∧
    (⟨true, none, [], [], []⟩ : StoreState).configured = true ∧
    c7Thread.messages.findIdx? (fun m => m.id == "u1") = some 0 ∧
    c7Thread.messages.get? 0 =
      some ⟨"u1", MessageRole.user,
        [MessageContent.text
          ⟨"draw a cat\n\n[Image settings: aspect ratio 1:1, resolution 1K]", false, none⟩],
        1⟩ ∧
    handleForkThread ⟨true, none, [], [], []⟩ c7Ui "u1" 9 0 =
      ⟨⟨true, none, [], [], []⟩,
        { c7Ui with messageInput := "draw a cat", attachedImages := [], currentThread := none },
        false, []⟩ :=
  ⟨rfl, rfl, by decide, by decide,
    (C7_fork_at_zero_on_user_message_persists_nothing ⟨true, none, [], [], []⟩ c7Ui c7Thread
        "u1"
        ⟨"u1", MessageRole.user,
          [MessageContent.text
            ⟨"draw a cat\n\n[Image settings: aspect ratio 1:1, resolution 1K]", false, none⟩],
          1⟩
        9 0 rfl rfl (by decide) (by decide) rfl).trans
      (by decide)⟩

def cexThreadC7 : ConversationThread :=
  ⟨"t1", [⟨"a1", MessageRole.assistant, [], 5⟩], none, none, none, 0, 5, "m", 1⟩

def cexUiC7 : UIState := ⟨[cexThreadC7], some cexThreadC7, "", [], none, [], "1:1", "1K", "m", 1⟩

/-- Claim C7 as stated is false: forking at message index 0 on a thread whose
first message does not have role user falls through to the general fork path
and persists a new one-message thread — the stored collection changes and a
persist write is issued. -/
theorem C7_counterexample_fork_at_zero_assistant_first_persists :
    (handleForkThread ⟨true, none, [], [], []⟩ cexUiC7 "a1" 10 0).events ≠ [] ∧
    (handleForkThread ⟨true, none, [], [], []⟩ cexUiC7 "a1" 10 0).store ≠
      (⟨true, none, [], [], []⟩ : StoreState) ∧
    (docOf (handleForkThread ⟨true, none, [], [], []⟩ cexUiC7 "a1" 10 0).store).threads.length =
      1 := by
  refine ⟨by decide, by decide, by decide⟩

end GoBananas
